import Mathlib

/-!
Verification of the hawkeye logo-generation scripts.

Shallow embedding of the image-pipeline scripts:
  * the bottom-right-anchored fixed crop of
    `generate_soul_bright_fixed_crop.py` / `generate_clean_logo.py`,
  * the per-pixel tone-mapping primitives (PIL `Image.blend` as used by
    `ImageEnhance.*.enhance`, and the two-point `ImageOps.colorize` LUT),
  * the radial gradient mask of `generate_variants.py`,
  * the highlight-extraction point operations of
    `generate_soul_eye_logo.py` / `generate_soul_bright_fixed_crop.py`,
  * the export phases (`main` / `save_resized`) of the scripts, modelled as
    functions from injected per-write outcomes to the list of files written
    and the final process outcome,
  * the result-count clamp of `packages/core/scripts/web-search/inference.py`.

Python integers are modelled as `Nat`/`Int`; `int(x * 0.6)`-style
truncations of non-negative values are modelled as exact floor divisions.
-/

namespace Hawkeye

/-- Integer crop rectangle `(left, top, size)`; the square box handed to
`img.crop((left, top, left + crop_size, top + crop_size))`. -/
structure CropRect where
  left : Int
  top : Int
  size : Int
deriving DecidableEq, Repr

/-- The fixed bottom-right-anchored crop of
`generate_soul_bright_fixed_crop.py` lines 14-35 (identical in
`generate_clean_logo.py` lines 12-19):
`min_dim = min(width, height)`, `crop_size = int(min_dim * 0.60)`,
`padding = int(min_dim * 0.1)`, `left = width - crop_size - padding`,
`top = height - crop_size - padding`, then `if left < 0: left = 0` and
`if top < 0: top = 0`. -/
def bottomRightCrop (width height : Nat) : CropRect :=
  let min_dim := min width height
  let crop_size := 6 * min_dim / 10
  let padding := min_dim / 10
  let left : Int := (width : Int) - crop_size - padding
  let top : Int := (height : Int) - crop_size - padding
  ⟨max 0 left, max 0 top, crop_size⟩

/-- PIL `Blend.c` per-pixel semantics: the float result is clipped to
`[0, 255]` and cast to an 8-bit integer (truncation; the clipped value is
non-negative, so truncation is the floor). -/
def clampByte (t : ℚ) : Nat :=
  if t ≤ 0 then 0 else if 255 ≤ t then 255 else (Int.floor t).toNat

/-- One channel of PIL `Image.blend(degenerate, image, alpha)`, which is
what every `ImageEnhance.*.enhance(alpha)` call computes:
`degenerate + alpha * (image - degenerate)` per pixel, then clip-and-cast.
`deg` is the degenerate image's pixel (black for Brightness, the mean
gray for Contrast, a smoothed pixel for Sharpness). -/
def blendPixel (deg pix : Nat) (alpha : ℚ) : Nat :=
  clampByte ((deg : ℚ) + alpha * ((pix : ℚ) - (deg : ℚ)))

/-- One channel of the two-point `ImageOps.colorize(gray, black, white)`
lookup table (`blackpoint=0`, `whitepoint=255`): entry `l < 255` is
`black + l * (white - black) // 255` (Python floor division by the
positive constant 255, which is `Int` division here), entry 255 is
`white`. -/
def colorizeChannel (black white : Int) (l : Nat) : Int :=
  if l < 255 then black + (l : Int) * (white - black) / 255 else white

/-- The full RGB two-point color ramp applied to a luminance value. -/
def colorizeRGB (black white : Int × Int × Int) (l : Nat) : Int × Int × Int :=
  (colorizeChannel black.1 white.1 l,
   colorizeChannel black.2.1 white.2.1 l,
   colorizeChannel black.2.2 white.2.2 l)

/-- One pixel of `create_gradient_mask` in `generate_variants.py` as a
function of the pixel's distance from the canvas center:
`255` when `dist < max_radius * 0.7`, `0` when `dist > max_radius`, and
otherwise `int(255 * (1 - ratio))` with
`ratio = (dist - max_radius*0.7) / (max_radius*0.3)` (the truncated value
is non-negative in this branch, so `int` is the floor). -/
def gradientMaskValue (max_radius dist : ℚ) : Nat :=
  if dist < max_radius * (7/10) then 255
  else if max_radius < dist then 0
  else (Int.floor (255 * (1 - (dist - max_radius * (7/10)) / (max_radius * (3/10))))).toNat

/-- `create_gradient_mask(w, h)` pixel value at distance `dist` from the
center, with `max_radius = min(w, h) / 2`. -/
def createGradientMaskValue (w h : Nat) (dist : ℚ) : Nat :=
  gradientMaskValue (min (w : ℚ) (h : ℚ) / 2) dist

/-- The highlight-extraction point operation
`gray.point(lambda p: p if p > threshold else 0)` of
`generate_soul_eye_logo.py` line 67 and
`generate_soul_bright_fixed_crop.py` line 51. -/
def highlightPoint (threshold p : Nat) : Nat :=
  if threshold < p then p else 0

/-- The binarizing point operation
`highlights.point(lambda p: 255 if p > 0 else 0)` of
`generate_soul_eye_logo.py` line 74. -/
def binarizePoint (p : Nat) : Nat :=
  if 0 < p then 255 else 0

/-- `max_results = max(1, min(10, args.max_results))` from
`packages/core/scripts/web-search/inference.py` line 95. -/
def effectiveMaxResults (max_results : Int) : Int :=
  max 1 (min 10 max_results)

/-- An export destination: file path (relative to the hard-coded root)
and pixel size. -/
structure ExportTarget where
  path : String
  size : Nat
deriving DecidableEq, Repr

/-- Outcome of one script run: the files written, and whether the process
finished normally (exit status 0) or died on an uncaught exception
(non-zero exit status). -/
inductive RunResult where
  | finished : List ExportTarget → RunResult
  | crashed : List ExportTarget → RunResult
deriving DecidableEq, Repr

/-- Process exit status of a run: 0 on normal completion, 1 when an
uncaught exception terminates the interpreter. -/
def RunResult.exitStatus : RunResult → Nat
  | .finished _ => 0
  | .crashed _ => 1

/-- The files a run wrote, whether or not it crashed afterwards. -/
def RunResult.written : RunResult → List ExportTarget
  | .finished ws => ws
  | .crashed ws => ws

/-- A straight-line sequence of `save_resized` calls with no exception
handler (the edition scripts' `save_resized`): call `i` succeeds exactly
when `saveOk i`; the first failure raises, so later targets are never
attempted. -/
def runSaves (saveOk : Nat → Bool) : Nat → List ExportTarget → RunResult
  | _, [] => .finished []
  | i, t :: ts =>
    if saveOk i then
      match runSaves saveOk (i + 1) ts with
      | .finished ws => .finished (t :: ws)
      | .crashed ws => .crashed (t :: ws)
    else .crashed []

/-- A sequence of `save_resized` calls each wrapped in its own
`try/except` that logs and continues (`.sisyphus/propagate_master_logo.py`
lines 4-13): every call is attempted; the successful ones write. -/
def savesKept (saveOk : Nat → Bool) : Nat → List ExportTarget → List ExportTarget
  | _, [] => []
  | i, t :: ts => (if saveOk i then [t] else []) ++ savesKept saveOk (i + 1) ts

/-- The nine `save_resized` targets shared verbatim by the four edition
scripts (`generate_clean_logo.py`, `generate_soul_logo.py`,
`generate_soul_eye_logo.py`, `generate_soul_bright_fixed_crop.py`) and by
`propagate_master_logo.py`. -/
def editionTargets : List ExportTarget :=
  [⟨"hawkeye/packages/chrome-extension/public/icons/icon16.png", 16⟩,
   ⟨"hawkeye/packages/chrome-extension/public/icons/icon48.png", 48⟩,
   ⟨"hawkeye/packages/chrome-extension/public/icons/icon128.png", 128⟩,
   ⟨"hawkeye/packages/vscode-extension/images/icon.png", 128⟩,
   ⟨"hawkeye/packages/desktop/resources/icon.png", 512⟩,
   ⟨"hawkiyi-web/public/logo.png", 512⟩,
   ⟨"hawkiyi-web/public/favicon-16x16.png", 16⟩,
   ⟨"hawkiyi-web/public/favicon-32x32.png", 32⟩,
   ⟨"hawkiyi-web/public/apple-touch-icon.png", 180⟩]

/-- The 32×32 ICO-format favicon target. -/
def icoTarget : ExportTarget := ⟨"hawkiyi-web/public/favicon.ico", 32⟩

/-- The root `logo.png` written last by the edition scripts. -/
def rootLogoTarget : ExportTarget := ⟨"hawkeye/logo.png", 512⟩

/-- The 32×32 PNG favicon `generate_logo.py` writes when the ICO save
fails. -/
def webFaviconPng : ExportTarget := ⟨"hawkiyi-web/public/favicon.png", 32⟩

/-- `main()` of the four edition scripts (structure of
`generate_clean_logo.py` lines 78-112, identical in the three soul
scripts up to the processed image): if the processor returned `None`
(source unreadable) nothing is exported and the script ends normally;
otherwise nine unguarded `save_resized` calls (attempt indices 0-8), then
the ICO save guarded by `try/except: pass` (attempt 9), then one more
unguarded `save_resized` for the root logo (attempt 10). -/
def editionMain (loadOk : Bool) (saveOk : Nat → Bool) : RunResult :=
  if loadOk then
    match runSaves saveOk 0 editionTargets with
    | .crashed ws => .crashed ws
    | .finished ws =>
      let ws2 := ws ++ (if saveOk 9 then [icoTarget] else [])
      if saveOk 10 then .finished (ws2 ++ [rootLogoTarget]) else .crashed ws2
  else .finished []

/-- The seven plain `save_resized` targets of `generate_logo.py`
(lines 73-89); note the seventh already writes `favicon.ico` through
`save_resized`, before the guarded ICO attempt. -/
def genLogoTargets : List ExportTarget :=
  [⟨"hawkeye/packages/chrome-extension/public/icons/icon16.png", 16⟩,
   ⟨"hawkeye/packages/chrome-extension/public/icons/icon48.png", 48⟩,
   ⟨"hawkeye/packages/chrome-extension/public/icons/icon128.png", 128⟩,
   ⟨"hawkeye/packages/vscode-extension/images/icon.png", 128⟩,
   ⟨"hawkeye/packages/desktop/resources/icon.png", 512⟩,
   ⟨"hawkiyi-web/public/logo.png", 512⟩,
   ⟨"hawkiyi-web/public/favicon.ico", 32⟩]

/-- `main()` of `generate_logo.py` (no source image is loaded): seven
unguarded `save_resized` calls (attempt indices 0-6), then the guarded
ICO save (attempt 7); on its failure the handler prints the error and
falls back to an unguarded `save_resized` of `favicon.png` at 32
(attempt 8). -/
def genLogoMain (saveOk : Nat → Bool) : RunResult :=
  match runSaves saveOk 0 genLogoTargets with
  | .crashed ws => .crashed ws
  | .finished ws =>
    if saveOk 7 then .finished (ws ++ [icoTarget])
    else if saveOk 8 then .finished (ws ++ [webFaviconPng])
    else .crashed ws

/-- `main()` of `.sisyphus/propagate_master_logo.py`: returns early
(normally, writing nothing) when the master logo is missing or cannot be
opened; otherwise attempts all nine targets through the error-swallowing
`save_resized` (attempt indices 0-8) and finally the guarded ICO save
(attempt 9). -/
def propagateMain (masterExists loadOk : Bool) (saveOk : Nat → Bool) : RunResult :=
  if masterExists && loadOk then
    .finished (savesKept saveOk 0 editionTargets ++ (if saveOk 9 then [icoTarget] else []))
  else .finished []

/-- `generate_variant` of `generate_variants.py`: returns early on a
load failure (lines 32-35), writing nothing; otherwise writes the single
variant file `logo_variant_<color_name>.png`. -/
def generateVariant (loadOk : Bool) (color_name : String) : List ExportTarget :=
  if loadOk then [⟨"logo_variant_" ++ color_name ++ ".png", 512⟩] else []

end Hawkeye

theorem Hawkeye.blendPixel_one (deg pix : Nat) (hp : pix ≤ 255) :
    blendPixel deg pix 1 = pix := by
  have harg : (deg : ℚ) + 1 * ((pix : ℚ) - (deg : ℚ)) = (pix : ℚ) := by ring
  rw [blendPixel, harg, clampByte]
  rcases le_or_lt (pix : ℚ) 0 with h0 | h0
  · have hp0 : pix = 0 := by exact_mod_cast Nat.cast_nonpos.mp h0
    rw [if_pos h0, hp0]
  · rw [if_neg (not_le.mpr h0)]
    rcases le_or_lt (255 : ℚ) (pix : ℚ) with h2 | h2
    · have h2n : (255 : Nat) ≤ pix := by exact_mod_cast h2
      rw [if_pos h2, le_antisymm hp h2n]
    · rw [if_neg (not_le.mpr h2), Int.floor_natCast]
      simp

theorem Hawkeye.colorizeChannel_zero_255 (l : Nat) (hl : l ≤ 255) :
    colorizeChannel 0 255 l = (l : Int) := by
  rw [colorizeChannel]
  rcases lt_or_ge l 255 with h | h
  · rw [if_pos h]
    rw [show ((255 : Int) - 0) = 255 by ring]
    rw [Int.mul_ediv_cancel _ (by norm_num)]
    ring
  · have hl255 : l = 255 := le_antisymm hl h
    rw [if_neg (by omega), hl255]
    norm_num

theorem Hawkeye.gradientMaskValue_le_255 (R d : ℚ) (hR : 0 < R) :
    gradientMaskValue R d ≤ 255 := by
  rw [gradientMaskValue]
  by_cases h1 : d < R * (7/10)
  · rw [if_pos h1]
  · rw [if_neg h1]
    by_cases h2 : R < d
    · rw [if_pos h2]
      exact Nat.zero_le 255
    · rw [if_neg h2]
      have hratio : 0 ≤ (d - R * (7/10)) / (R * (3/10)) :=
        div_nonneg (by linarith [not_lt.mp h1]) (by positivity)
      have hval : (255 : ℚ) * (1 - (d - R * (7/10)) / (R * (3/10))) ≤ 255 := by nlinarith
      have hfl : Int.floor ((255 : ℚ) * (1 - (d - R * (7/10)) / (R * (3/10)))) ≤ (255 : ℤ) := by
        have := Int.floor_mono hval
        simpa using this
      exact le_trans (Int.toNat_le_toNat hfl) (by decide)

theorem Hawkeye.gradientMaskValue_antitone (R d₁ d₂ : ℚ) (hR : 0 < R) (h12 : d₁ ≤ d₂) :
    gradientMaskValue R d₂ ≤ gradientMaskValue R d₁ := by
  by_cases h1 : d₁ < R * (7/10)
  · rw [show gradientMaskValue R d₁ = 255 by rw [gradientMaskValue, if_pos h1]]
    exact gradientMaskValue_le_255 R d₂ hR
  · by_cases hb : R < d₁
    · have hb2 : R < d₂ := lt_of_lt_of_le hb h12
      have h2 : ¬d₂ < R * (7/10) := by
        intro hcon
        exact h1 (lt_of_le_of_lt h12 hcon)
      rw [gradientMaskValue, if_neg h2, if_pos hb2]
      exact Nat.zero_le _
    · by_cases hb2 : R < d₂
      · have h2 : ¬d₂ < R * (7/10) := by
          intro hcon
          exact h1 (lt_of_le_of_lt h12 hcon)
        rw [gradientMaskValue, if_neg h2, if_pos hb2]
        exact Nat.zero_le _
      · have h2 : ¬d₂ < R * (7/10) := by
          intro hcon
          exact h1 (lt_of_le_of_lt h12 hcon)
        rw [gradientMaskValue, gradientMaskValue, if_neg h1, if_neg h2,
          if_neg hb, if_neg hb2]
        have hb3 : (0 : ℚ) < R * (3/10) := by positivity
        have hdiv : (d₁ - R * (7/10)) / (R * (3/10)) ≤ (d₂ - R * (7/10)) / (R * (3/10)) :=
          (div_le_div_iff_of_pos_right hb3).mpr (by linarith)
        have hval : (255 : ℚ) * (1 - (d₂ - R * (7/10)) / (R * (3/10))) ≤
            255 * (1 - (d₁ - R * (7/10)) / (R * (3/10))) := by linarith
        exact Int.toNat_le_toNat (Int.floor_mono hval)

/-- C1: for every source `w ≥ 1`, `h ≥ 1`, the bottom-right-anchored crop
rectangle (side `int(0.6·min(w,h))`, padding `int(0.1·min(w,h))`, negative
origins clamped to 0) satisfies `0 ≤ left`, `0 ≤ top`, `left + size ≤ w`
and `top + size ≤ h`: the crop box lies fully inside the source. -/
theorem Hawkeye.bottomRightCrop_inBounds (w h : Nat) (hw : 1 ≤ w) (hh : 1 ≤ h) :
    0 ≤ (bottomRightCrop w h).left ∧ 0 ≤ (bottomRightCrop w h).top ∧
    (bottomRightCrop w h).left + (bottomRightCrop w h).size ≤ (w : Int) ∧
    (bottomRightCrop w h).top + (bottomRightCrop w h).size ≤ (h : Int) := by
  simp only [bottomRightCrop]
  omega

/-- Witness for C1 at the concrete source size 2000×1300. -/
theorem Hawkeye.bottomRightCrop_inBounds_witness :
    1 ≤ 2000 ∧ 1 ≤ 1300 ∧
      (0 ≤ (Hawkeye.bottomRightCrop 2000 1300).left ∧
       0 ≤ (Hawkeye.bottomRightCrop 2000 1300).top ∧
       (Hawkeye.bottomRightCrop 2000 1300).left + (Hawkeye.bottomRightCrop 2000 1300).size ≤ (2000 : Int) ∧
       (Hawkeye.bottomRightCrop 2000 1300).top + (Hawkeye.bottomRightCrop 2000 1300).size ≤ (1300 : Int)) :=
  ⟨by decide, by decide,
    Hawkeye.bottomRightCrop_inBounds 2000 1300 (by decide) (by decide)⟩

/-- C8 counterexample: on a 2000×1000 source the code computes the crop
side from `min(width, height) = 1000`, giving size 600, left 1300 and
top 300 — not left 600, top 0, size 1200 as the claim states. -/
theorem Hawkeye.bottomRightCrop_2000_1000_not_spec :
    Hawkeye.bottomRightCrop 2000 1000 = ⟨1300, 300, 600⟩ ∧
    ¬((Hawkeye.bottomRightCrop 2000 1000).left = 600 ∧
      (Hawkeye.bottomRightCrop 2000 1000).top = 0 ∧
      (Hawkeye.bottomRightCrop 2000 1000).size = 1200) := by
  constructor
  · rfl
  · decide

/-- C8 amended: for a 2000×1000 source the crop side is
`int(0.6·min(2000,1000)) = 600`, with `left = 2000-600-100 = 1300` and
`top = 1000-600-100 = 300`; no clamping occurs. -/
theorem Hawkeye.bottomRightCrop_2000_1000 :
    Hawkeye.bottomRightCrop 2000 1000 = ⟨1300, 300, 600⟩ := by
  rfl

/-- C2: a Tone Mapper whose brightness, contrast and sharpness enhancement
factors are all `1.0` (each `enhance` call is PIL `Image.blend` with the
respective degenerate image), followed by the two-point color ramp with
black point `(0,0,0)` and white point `(255,255,255)`, maps every
luminance value `l ∈ [0,255]` to `(l, l, l)`: the identity round-trip,
whatever the degenerate pixel values `bDeg`, `cDeg`, `sDeg` are. -/
theorem Hawkeye.toneMapper_identity (l bDeg cDeg sDeg : Nat) (hl : l ≤ 255) :
    Hawkeye.colorizeRGB (0, 0, 0) (255, 255, 255)
      (Hawkeye.blendPixel sDeg (Hawkeye.blendPixel cDeg (Hawkeye.blendPixel bDeg l 1) 1) 1) =
    ((l : Int), (l : Int), (l : Int)) := by
  rw [Hawkeye.blendPixel_one bDeg l hl, Hawkeye.blendPixel_one cDeg l hl,
    Hawkeye.blendPixel_one sDeg l hl, Hawkeye.colorizeRGB]
  simp [Hawkeye.colorizeChannel_zero_255 l hl]

/-- Witness for C2 at luminance 200 with degenerate pixels 99, 3, 7. -/
theorem Hawkeye.toneMapper_identity_witness :
    (200 : Nat) ≤ 255 ∧
    Hawkeye.colorizeRGB (0, 0, 0) (255, 255, 255)
      (Hawkeye.blendPixel 7 (Hawkeye.blendPixel 3 (Hawkeye.blendPixel 99 200 1) 1) 1) =
    ((200 : Int), (200 : Int), (200 : Int)) :=
  ⟨by decide, Hawkeye.toneMapper_identity 200 99 3 7 (by decide)⟩

/-- C3: for every square mask size `n ≥ 1`, the `create_gradient_mask`
value (255 inside `0.7·maxRadius`, linear falloff between `0.7·maxRadius`
and `maxRadius`, 0 beyond) is monotonically non-increasing in the
distance from the canvas center: along any outward ray,
`d₁ ≤ d₂` implies `value(d₂) ≤ value(d₁)`. -/
theorem Hawkeye.createGradientMask_antitone (n : Nat) (d₁ d₂ : ℚ)
    (hn : 1 ≤ n) (h0 : 0 ≤ d₁) (h12 : d₁ ≤ d₂) :
    Hawkeye.createGradientMaskValue n n d₂ ≤ Hawkeye.createGradientMaskValue n n d₁ := by
  have hR : (0 : ℚ) < min (n : ℚ) (n : ℚ) / 2 := by
    rw [min_self]
    have : (1 : ℚ) ≤ (n : ℚ) := by exact_mod_cast hn
    linarith
  exact Hawkeye.gradientMaskValue_antitone _ d₁ d₂ hR h12

/-- Witness for C3 on a 10×10 mask at distances 7 and 9. -/
theorem Hawkeye.createGradientMask_antitone_witness :
    (1 ≤ 10) ∧ ((0 : ℚ) ≤ 7) ∧ ((7 : ℚ) ≤ 9) ∧
    Hawkeye.createGradientMaskValue 10 10 9 ≤ Hawkeye.createGradientMaskValue 10 10 7 :=
  ⟨by decide, by norm_num, by norm_num,
    Hawkeye.createGradientMask_antitone 10 7 9 (by decide) (by norm_num) (by norm_num)⟩

/-- C4 counterexample: in `generate_clean_logo.py` (and the other soul
edition scripts) a failing ICO save is swallowed by `except: pass` — the
run with only attempt 9 (the ICO save) failing finishes with all other
targets written, and no 32-pixel PNG fallback `favicon.png` appears among
the written files. -/
theorem Hawkeye.editionMain_ico_failure_no_png_fallback :
    Hawkeye.editionMain true (fun i => i != 9) =
      Hawkeye.RunResult.finished (Hawkeye.editionTargets ++ [Hawkeye.rootLogoTarget]) ∧
    Hawkeye.webFaviconPng ∉
      (Hawkeye.editionMain true (fun i => i != 9)).written := by
  constructor
  · rfl
  · decide

/-- C4 amended: only `generate_logo.py` falls back to writing the
32-pixel PNG `favicon.png` when the guarded ICO save fails (and then
finishes normally); the four photo-edition scripts silently drop the ICO
target (`except: pass`) and still continue to the remaining target. -/
theorem Hawkeye.genLogoMain_ico_fallback_png32 :
    Hawkeye.genLogoMain (fun i => i != 7) =
      Hawkeye.RunResult.finished (Hawkeye.genLogoTargets ++ [Hawkeye.webFaviconPng]) ∧
    Hawkeye.webFaviconPng.size = 32 ∧
    Hawkeye.editionMain true (fun i => i != 9) =
      Hawkeye.RunResult.finished (Hawkeye.editionTargets ++ [Hawkeye.rootLogoTarget]) :=
  ⟨rfl, rfl, rfl⟩

/-- C5 counterexample: in `generate_clean_logo.py` the `save_resized`
helper has no exception handler, so when the third target (attempt
index 2) fails, the uncaught exception aborts the run after only the
first two targets were written — the remaining targets are not
processed. -/
theorem Hawkeye.editionMain_aborts_on_target_failure :
    Hawkeye.editionMain true (fun i => i != 2) =
      Hawkeye.RunResult.crashed
        [⟨"hawkeye/packages/chrome-extension/public/icons/icon16.png", 16⟩,
         ⟨"hawkeye/packages/chrome-extension/public/icons/icon48.png", 48⟩] := by
  rfl

/-- C5 amended: only `.sisyphus/propagate_master_logo.py` wraps each
per-target write in its own `try/except`: its run never aborts (it always
finishes, for every injected failure pattern), and with only attempt 2
failing, that target is skipped while all remaining targets are still
written; the edition scripts' `save_resized` has no handler, so there a
single failing target aborts the batch. -/
theorem Hawkeye.propagateMain_never_aborts :
    (∀ saveOk : Nat → Bool, ∃ ws,
      Hawkeye.propagateMain true true saveOk = Hawkeye.RunResult.finished ws) ∧
    Hawkeye.propagateMain true true (fun i => i != 2) =
      Hawkeye.RunResult.finished (Hawkeye.editionTargets.eraseIdx 2 ++ [Hawkeye.icoTarget]) ∧
    Hawkeye.editionMain true (fun i => i != 2) =
      Hawkeye.RunResult.crashed (Hawkeye.editionTargets.take 2) :=
  ⟨fun saveOk => ⟨_, rfl⟩, by decide, by decide⟩

/-- C6 counterexample: when the source image cannot be opened the edition
script prints a diagnostic, skips all exports and exits with status 0 —
not non-zero; conversely a per-target export failure (uncaught exception
in `save_resized`) is exactly what makes the process exit non-zero. -/
theorem Hawkeye.editionMain_exitStatus_contra :
    Hawkeye.RunResult.exitStatus (Hawkeye.editionMain false (fun _ => true)) = 0 ∧
    Hawkeye.RunResult.exitStatus (Hawkeye.editionMain true (fun _ => false)) = 1 :=
  ⟨rfl, rfl⟩

/-- C6 amended: on a loader failure the edition script writes nothing and
exits with status zero (for every pattern of injected save failures,
since no save is ever attempted); the non-zero exit arises instead from
an uncaught `save_resized` failure during export. -/
theorem Hawkeye.editionMain_loadFailure_exits_zero :
    (∀ saveOk : Nat → Bool,
      Hawkeye.editionMain false saveOk = Hawkeye.RunResult.finished [] ∧
      Hawkeye.RunResult.exitStatus (Hawkeye.editionMain false saveOk) = 0) ∧
    Hawkeye.RunResult.exitStatus (Hawkeye.editionMain true (fun _ => false)) = 1 :=
  ⟨fun saveOk => ⟨rfl, rfl⟩, rfl⟩

/-- C7 counterexample: the pre-blur highlight mask is
`gray.point(lambda p: p if p > threshold else 0)` — at the
`generate_soul_bright_fixed_crop.py` threshold 210, a luminance of 220 is
mapped to 220, not to 255, so the mask is not binary. -/
theorem Hawkeye.highlightPoint_not_binary :
    Hawkeye.highlightPoint 210 220 = 220 ∧ Hawkeye.highlightPoint 210 220 ≠ 255 := by
  decide

/-- C7 amended: the pre-blur highlight mask keeps the luminance value
where it exceeds the threshold (`l` where `l > t`, else 0), so it is not
binary; in `generate_soul_eye_logo.py` the subsequent point operation
(255 where positive) makes the composed pre-blur mask exactly binary:
255 where `l > t` and 0 elsewhere. -/
theorem Hawkeye.binarize_highlight (t p : Nat) :
    Hawkeye.binarizePoint (Hawkeye.highlightPoint t p) =
      if t < p then 255 else 0 := by
  by_cases h : t < p
  · have hp : 0 < p := by omega
    simp [Hawkeye.highlightPoint, Hawkeye.binarizePoint, h, hp]
  · simp [Hawkeye.highlightPoint, Hawkeye.binarizePoint, h]

/-- C9: for every integer supplied as the result-count argument, the
effective maximum number of results is `max(1, min(10, value))`, which
always lies between 1 and 10 inclusive. -/
theorem Hawkeye.effectiveMaxResults_clamped (v : Int) :
    Hawkeye.effectiveMaxResults v = max 1 (min 10 v) ∧
    1 ≤ Hawkeye.effectiveMaxResults v ∧ Hawkeye.effectiveMaxResults v ≤ 10 := by
  refine ⟨rfl, ?_, ?_⟩ <;> (rw [Hawkeye.effectiveMaxResults]; omega)

/-- C10: if opening the source photograph raises, the logo-generation
scripts write zero output files: the edition scripts' pipeline returns
`None` and `main` skips every export; `generate_variant` returns early;
`propagate_master_logo.py` returns early — all for every pattern of
injected save outcomes, and the run ends normally. -/
theorem Hawkeye.loadFailure_writes_nothing :
    (∀ saveOk : Nat → Bool,
      Hawkeye.editionMain false saveOk = Hawkeye.RunResult.finished []) ∧
    (∀ color_name, Hawkeye.generateVariant false color_name = []) ∧
    (∀ saveOk : Nat → Bool,
      Hawkeye.propagateMain true false saveOk = Hawkeye.RunResult.finished []) :=
  ⟨fun _ => rfl, fun _ => rfl, fun _ => rfl⟩
